import Mathlib

/-!
Verification of the game-time monitoring and triggered-scraping scheduler of
the DFS-Scraper repository.  The Python sources are embedded shallowly:

* times are modelled exactly as the code manipulates them — the monitoring
  loop and window helpers compare absolute timestamps, modelled as integer
  second counts; `parse_game_time` manipulates calendar datetimes, modelled
  by the `PyDateTime` structure below;
* every ambient `datetime.now()` call of the code is made explicit as a
  parameter of the embedded function;
* fallible operations return `Option`, matching the `try/except ... return
  None / return []` structure of the source.
-/

/-- An upcoming game as built by `get_next_nfl_games` (src/monitor.py,
lines 177-189): the fields used by the control logic.  `game_time` is the
absolute timestamp (seconds); team names are carried for fidelity, the
metadata bag is informational only and omitted. -/
structure Game where
  game_time : ℤ
  away_team : String
  home_team : String
deriving Repr, DecidableEq

/-- The sort key of `upcoming_games.sort(key=lambda x: x['game_time'])`
(src/monitor.py, line 192). -/
def gameTimeLE (a b : Game) : Prop := a.game_time ≤ b.game_time

instance : DecidableRel gameTimeLE := fun a b => by
  unfold gameTimeLE; infer_instance

instance : IsTotal Game gameTimeLE := ⟨fun a b => le_total a.game_time b.game_time⟩

instance : IsTrans Game gameTimeLE := ⟨fun _ _ _ => le_trans⟩

/-- Python `list.sort` is a stable sort; any stable sort by the same key
produces the same list, so the sort of src/monitor.py line 192 is modelled
by the stable insertion sort. -/
def sortGames (l : List Game) : List Game := List.insertionSort gameTimeLE l

/-- Lines 198-201 of src/monitor.py: take the first time of the sorted
upcoming list and keep exactly the games at that time. -/
def groupEarliest : List Game → List Game
  | [] => []
  | g :: rest => (g :: rest).filter (fun x => decide (x.game_time = g.game_time))

/-- `get_next_nfl_games` (src/monitor.py, lines 155-203), with the result of
`get_nfl_schedule_2025` and the ambient `datetime.now()` made explicit
parameters: drop games not strictly in the future (line 171), sort by game
time (line 192), return the earliest group (lines 198-201). -/
def get_next_nfl_games (all_games : List Game) (now : ℤ) : List Game :=
  groupEarliest (sortGames (all_games.filter (fun g => decide (now < g.game_time))))

/-- `get_next_upcoming_games_after_current` (src/monitor.py, lines 209-261):
for an empty current set fall back to `get_next_nfl_games` (line 213);
otherwise keep only games strictly after the current set and return the
earliest group among them (lines 221-261). -/
def get_next_upcoming_games_after_current (all_games : List Game) (now : ℤ) :
    List Game → List Game
  | [] => get_next_nfl_games all_games now
  | c :: _ =>
      groupEarliest (sortGames
        (all_games.filter (fun g => decide (c.game_time < g.game_time))))

/-- The schedule-source pipeline realising the `fetch_upcoming_events`
contract of the specification: the past-game filter of
`get_nfl_schedule_2025` (src/monitor.py, line 118, strict `<`), the
upcoming filter of `get_next_nfl_games` (line 171, drops `<=`), and the
ascending sort (line 192), all relative to one explicit `reference_now`. -/
def fetch_upcoming_events (all_games : List Game) (now : ℤ) : List Game :=
  sortGames
    ((all_games.filter (fun g => decide (¬ g.game_time < now))).filter
      (fun g => decide (now < g.game_time)))

/-- `is_game_within_trigger_window` (src/monitor.py, lines 267-276): a falsy
game is never within the window; otherwise compute the difference in
minutes (exact division, modelled over ℚ) and test
`0 <= time_diff_minutes <= trigger_window`. -/
def is_game_within_trigger_window (game : Option Game) (trigger_window : ℤ)
    (now : ℤ) : Bool :=
  match game with
  | none => false
  | some g =>
      let d : ℚ := ((g.game_time - now : ℤ) : ℚ) / 60
      decide (0 ≤ d ∧ d ≤ (trigger_window : ℚ))

/-! ## The time parser: `parse_game_time` (src/monitor.py, lines 12-53)

The code works on Python naive `datetime` values, using only the weekday,
hour, minute, day-offset addition and field replacement.  A naive datetime
is modelled by a linear day number (days since a fixed Monday epoch, so
`weekday() = day % 7` with Monday = 0, matching the `day_map` of line 35)
together with its time-of-day fields. -/

/-- A Python naive `datetime`, as used by `parse_game_time`. -/
structure PyDateTime where
  day : ℤ
  hour : ℤ
  minute : ℤ
  second : ℤ
  microsecond : ℤ
deriving Repr, DecidableEq

/-- Ranges of the `datetime` fields; every value produced by
`datetime.now()` satisfies this. -/
def PyDateTime.Valid (t : PyDateTime) : Prop :=
  0 ≤ t.hour ∧ t.hour < 24 ∧ 0 ≤ t.minute ∧ t.minute < 60 ∧
  0 ≤ t.second ∧ t.second < 60 ∧ 0 ≤ t.microsecond ∧ t.microsecond < 1000000

instance (t : PyDateTime) : Decidable t.Valid := by
  unfold PyDateTime.Valid; infer_instance

/-- Total order on datetimes via the microsecond count since the epoch. -/
def PyDateTime.toMicros (t : PyDateTime) : ℤ :=
  t.day * 86400000000 + t.hour * 3600000000 + t.minute * 60000000 +
    t.second * 1000000 + t.microsecond

/-- Python `\s` on the ASCII inputs at hand: space, tab, newline, carriage
return, vertical tab, form feed. -/
def pyIsSpace (c : Char) : Bool :=
  c = ' ' || c = '\t' || c = '\n' || c = '\r' || c.toNat = 11 || c.toNat = 12

/-- Python `\w` on the ASCII inputs at hand: letters, digits, underscore. -/
def pyIsWord (c : Char) : Bool :=
  c.isAlpha || c.isDigit || c = '_'

/-- Python `str.strip()`. -/
def pyStrip (l : List Char) : List Char :=
  ((l.dropWhile pyIsSpace).reverse.dropWhile pyIsSpace).reverse

def digitVal (c : Char) : ℤ := (c.toNat : ℤ) - 48

/-- Tail of the regex of src/monitor.py line 20: exactly two minute digits,
then a lowercase `a` or `p`, then a literal lowercase `m`; `re.match` allows
arbitrary trailing characters.  Returns (day abbreviation, hour, minute,
is-pm). -/
def matchMinute (abbr : List Char) (hour : ℤ) :
    List Char → Option (List Char × ℤ × ℤ × Bool)
  | m1 :: m2 :: a :: 'm' :: _ =>
      if m1.isDigit && m2.isDigit then
        if a = 'a' then some (abbr, hour, 10 * digitVal m1 + digitVal m2, false)
        else if a = 'p' then some (abbr, hour, 10 * digitVal m1 + digitVal m2, true)
        else none
      else none
  | _ => none

/-- The `(\d{1,2}):` part of the regex: one digit followed by `:`, or two
digits followed by `:` (the greedy two-digit attempt backtracks to one digit
exactly when the second character is the colon). -/
def matchTime (abbr : List Char) : List Char → Option (List Char × ℤ × ℤ × Bool)
  | d1 :: rest =>
      if d1.isDigit then
        match rest with
        | ':' :: rest2 => matchMinute abbr (digitVal d1) rest2
        | d2 :: ':' :: rest2 =>
            if d2.isDigit then
              matchMinute abbr (10 * digitVal d1 + digitVal d2) rest2
            else none
        | _ => none
      else none
  | [] => none

/-- The `\s+` part of the regex: at least one further space may follow the
first; `\s` and `\d` are disjoint so the greedy match needs no backtracking. -/
def matchSpaces (abbr : List Char) : List Char → Option (List Char × ℤ × ℤ × Bool)
  | c :: rest => if pyIsSpace c then matchSpaces abbr rest else matchTime abbr (c :: rest)
  | [] => none

/-- `re.match(r'(\w{3})\s+(\d{1,2}):(\d{2})([ap]m)', s)` (src/monitor.py,
line 20) applied to the stripped input: three word characters, whitespace,
the time, the meridiem. -/
def matchGameTime : List Char → Option (List Char × ℤ × ℤ × Bool)
  | c1 :: c2 :: c3 :: c4 :: rest =>
      if pyIsWord c1 && pyIsWord c2 && pyIsWord c3 then
        if pyIsSpace c4 then matchSpaces [c1, c2, c3] rest else none
      else none
  | _ => none

/-- The `day_map` dictionary of src/monitor.py line 35, applied to the
lowercased abbreviation. -/
def day_map (abbr : List Char) : Option ℤ :=
  let s : String := ⟨abbr.map Char.toLower⟩
  if s = "mon" then some 0
  else if s = "tue" then some 1
  else if s = "wed" then some 2
  else if s = "thu" then some 3
  else if s = "fri" then some 4
  else if s = "sat" then some 5
  else if s = "sun" then some 6
  else none

/-- The 12-to-24 hour conversion of src/monitor.py lines 29-32 (the matched
meridiem is lowercase already, so the `.lower()` calls are identities). -/
def to24 (hour : ℤ) (isPM : Bool) : ℤ :=
  if isPM && !(hour == 12) then hour + 12
  else if !isPM && hour == 12 then 0
  else hour

/-- `(today + timedelta(days=days_ahead)).replace(hour=hour, minute=minute,
second=0, microsecond=0)` (src/monitor.py, lines 46-47).  `replace` raises
`ValueError` on an out-of-range field — caught by the surrounding `except`,
which returns `None` (lines 51-53). -/
def mkGameDatetime (today : PyDateTime) (days_ahead hour minute : ℤ) :
    Option PyDateTime :=
  if 0 ≤ hour ∧ hour ≤ 23 ∧ 0 ≤ minute ∧ minute ≤ 59 then
    some ⟨today.day + days_ahead, hour, minute, 0, 0⟩
  else none

/-- `parse_game_time` (src/monitor.py, lines 12-53).  The code reads the
clock ambiently — `today = datetime.now()` at line 41; that ambient reading
is the explicit `today` parameter here.  Empty input is falsy and returns
`None` (line 14); an unmatched format or unknown weekday returns `None`
(lines 21-22, 37-38). -/
def parse_game_time (game_time_str : String) (today : PyDateTime) :
    Option PyDateTime :=
  if game_time_str = "" then none
  else
    match matchGameTime (pyStrip game_time_str.data) with
    | none => none
    | some (abbr, hour12, minute, isPM) =>
        let hour := to24 hour12 isPM
        match day_map abbr with
        | none => none
        | some day_num =>
            let days_ahead : ℤ := (day_num - today.day % 7) % 7
            let days_ahead :=
              if days_ahead = 0 ∧
                  (hour < today.hour ∨ (hour = today.hour ∧ minute ≤ today.minute))
              then 7 else days_ahead
            mkGameDatetime today days_ahead hour minute

/-! ## The schedule-source cache (src/visit_prizepicks.py, lines 26-81) -/

/-- One row of the provider schedule, as read by `get_nfl_game_times`:
calendar date of the game, the two teams, and the raw time string. -/
structure ScheduleRow where
  gameday : ℤ
  home_team : String
  away_team : String
  gametime : String
deriving Repr, DecidableEq

/-- The module-level cache of src/visit_prizepicks.py lines 26-27:
`_nfl_game_times_cache` (Python `None` or a dict, modelled as an insertion
-ordered association list) and `_nfl_cache_date`. -/
structure NflCacheState where
  game_times_cache : Option (List (String × String))
  cache_date : Option ℤ
deriving Repr, DecidableEq

/-- Python truthiness of `_nfl_game_times_cache` as used at line 37:
`None` and the empty dict are both falsy. -/
def pyTruthyCache : Option (List (String × String)) → Bool
  | none => false
  | some l => !l.isEmpty

/-- The two key/value insertions per game of lines 67-69. -/
def buildGameTimes (rows : List ScheduleRow) : List (String × String) :=
  rows.foldl
    (fun acc r =>
      acc ++ [(r.away_team ++ "|" ++ r.home_team, r.gametime),
              (r.home_team ++ "|" ++ r.away_team, r.gametime)]) []

/-- `get_nfl_game_times` (src/visit_prizepicks.py, lines 29-81), with the
module-level cache threaded as explicit state, the ambient
`datetime.now().date()` as `current_date`, and the provider call
`nfl.import_schedules` as `provider` (`Except.error` models a raised
exception, caught at lines 79-81, which return `{}` leaving the cache
unchanged).  Returns the result, the new cache state, and whether the
provider was called this lookup. -/
def get_nfl_game_times (st : NflCacheState) (current_date : ℤ)
    (provider : Except Unit (List ScheduleRow)) :
    List (String × String) × NflCacheState × Bool :=
  if pyTruthyCache st.game_times_cache ∧ st.cache_date = some current_date then
    (st.game_times_cache.getD [], st, false)
  else
    match provider with
    | .error _ => ([], st, true)
    | .ok rows =>
        if rows.isEmpty then ([], st, true)
        else
          let today_games := rows.filter (fun r => decide (r.gameday = current_date))
          if today_games.isEmpty then
            ([], ⟨some [], some current_date⟩, true)
          else
            let gt := buildGameTimes today_games
            (gt, ⟨some gt, some current_date⟩, true)

/-! ## The monitoring loop (src/monitor.py, lines 278-381)

One iteration of the `while True` loop is the `tick` function.  The inputs
the loop obtains from the outside world during one iteration are collected
in `TickEnv`: the ambient clock, the schedule data the provider would
return this tick (the fetch helpers catch their own errors and return `[]`,
so a provider failure is the empty list), and the behaviour of the scraping
callback (`none` models the callback raising — the exception is caught by
the per-tick `except` at lines 365-366). -/

/-- The mutable loop state of src/monitor.py lines 287-288. -/
structure MonState where
  last_triggered_games : List ℤ
  current_monitoring_games : Option (List Game)
deriving Repr, DecidableEq

/-- The external inputs of one polling tick. -/
structure TickEnv where
  now : ℤ
  all_games : List Game
  has_callback : Bool
  callback_result : Option Bool
deriving Repr, DecidableEq

/-- Lines 308-363 of src/monitor.py, given the games selected for this tick
(`next_games`) and the value `current_monitoring_games` holds at that point
(`cur1`).  A raising callback ends the tick keeping every mutation made
before the raise — in particular the key added to `last_triggered_games`
at line 334 stays.  Returns the new state and `some key` exactly when the
scraping callback was invoked, where `key = first_game.game_time`
(line 333). -/
def tickBody (trigger_window : ℤ) (auto_continue : Bool) (st : MonState)
    (env : TickEnv) (next_games : List Game) (cur1 : Option (List Game)) :
    MonState × Option ℤ :=
  match next_games with
  | [] => (⟨st.last_triggered_games, none⟩, none)   -- lines 361-363
  | first :: _ =>
      if is_game_within_trigger_window (some first) trigger_window env.now then
        if first.game_time ∈ st.last_triggered_games then
          (⟨st.last_triggered_games, cur1⟩, none)   -- line 353
        else
          -- line 334: mark before the call
          let st1 : MonState := ⟨first.game_time :: st.last_triggered_games, cur1⟩
          if env.has_callback then
            match env.callback_result with
            | none => (st1, some first.game_time)   -- callback raised
            | some ok =>
                if auto_continue && ok then
                  -- lines 341-351: derive the next watch set
                  let nu := get_next_upcoming_games_after_current env.all_games
                    env.now next_games
                  match nu with
                  | [] => (⟨st1.last_triggered_games, none⟩, some first.game_time)
                  | _ :: _ =>
                      (⟨st1.last_triggered_games, some nu⟩, some first.game_time)
                else (st1, some first.game_time)
          else (st1, none)
      else (⟨st.last_triggered_games, cur1⟩, none)  -- lines 354-360

/-- One polling tick: src/monitor.py, lines 294-363, with the per-tick
`try/except` of lines 294-366 made explicit.  Lines 296-306 choose the
games to monitor this tick; `tickBody` is the rest of the iteration. -/
def tick (trigger_window : ℤ) (auto_continue : Bool) (st : MonState)
    (env : TickEnv) : MonState × Option ℤ :=
  match st.current_monitoring_games with
  | none =>
      tickBody trigger_window auto_continue st env
        (get_next_nfl_games env.all_games env.now) none
  | some [] =>
      let ng := get_next_upcoming_games_after_current env.all_games env.now []
      tickBody trigger_window auto_continue st env ng (some ng)
  | some (c :: cs) =>
      if env.now < c.game_time then
        tickBody trigger_window auto_continue st env (c :: cs) (some (c :: cs))
      else
        let ng := get_next_upcoming_games_after_current env.all_games env.now (c :: cs)
        tickBody trigger_window auto_continue st env ng (some ng)

/-- A whole monitoring run over a sequence of polling ticks, starting from
a state; returns the final state and the keys for which the scraping
callback was invoked, in order. -/
def runTicks (trigger_window : ℤ) (auto_continue : Bool) (st : MonState) :
    List TickEnv → MonState × List ℤ
  | [] => (st, [])
  | e :: es =>
      let r := tick trigger_window auto_continue st e
      let rest := runTicks trigger_window auto_continue r.1 es
      (rest.1, r.2.toList ++ rest.2)

/-- The successive states of a run, one per processed tick. -/
def runStates (trigger_window : ℤ) (auto_continue : Bool) (st : MonState) :
    List TickEnv → List MonState
  | [] => []
  | e :: es =>
      let st1 := (tick trigger_window auto_continue st e).1
      st1 :: runStates trigger_window auto_continue st1 es

/-! ## Helper lemmas on the sorted upcoming lists -/

theorem sorted_sortGames (l : List Game) : List.Sorted gameTimeLE (sortGames l) :=
  List.sorted_insertionSort gameTimeLE l

theorem mem_sortGames {g : Game} {l : List Game} : g ∈ sortGames l ↔ g ∈ l :=
  List.mem_insertionSort gameTimeLE

theorem mem_groupEarliest {g h : Game} {t : List Game} :
    g ∈ groupEarliest (h :: t) ↔ g ∈ h :: t ∧ g.game_time = h.game_time := by
  simp only [groupEarliest, List.mem_filter, decide_eq_true_eq]

/-- Membership in the earliest group of the sorted, strictly-later-than-`now`
games: exactly the games of the input that are strictly later than `now` and
minimal among those. -/
theorem mem_nextGroup {all_games : List Game} {now : ℤ} {g : Game} :
    g ∈ groupEarliest (sortGames
        (all_games.filter (fun x => decide (now < x.game_time)))) ↔
      g ∈ all_games ∧ now < g.game_time ∧
        ∀ g2 ∈ all_games, now < g2.game_time → g.game_time ≤ g2.game_time := by
  set upcoming := all_games.filter (fun x => decide (now < x.game_time)) with hup
  have hmem_up : ∀ x : Game, x ∈ upcoming ↔ x ∈ all_games ∧ now < x.game_time := by
    intro x; rw [hup]; simp [List.mem_filter]
  cases hs : sortGames upcoming with
  | nil =>
      simp only [groupEarliest, List.not_mem_nil, false_iff]
      rintro ⟨hga, hgt, -⟩
      have : g ∈ sortGames upcoming := mem_sortGames.mpr ((hmem_up g).mpr ⟨hga, hgt⟩)
      rw [hs] at this
      exact absurd this (List.not_mem_nil g)
  | cons h t =>
      have hsorted : List.Sorted gameTimeLE (h :: t) := hs ▸ sorted_sortGames upcoming
      have hmem : ∀ x : Game, x ∈ h :: t ↔ x ∈ upcoming := by
        intro x; rw [← hs]; exact mem_sortGames
      have hhead_min : ∀ x ∈ upcoming, h.game_time ≤ x.game_time := by
        intro x hx
        rcases List.mem_cons.mp ((hmem x).mpr hx) with rfl | hxt
        · exact le_refl _
        · exact (List.sorted_cons.mp hsorted).1 x hxt
      have hh : h ∈ upcoming := (hmem h).mp (List.mem_cons_self h t)
      rw [mem_groupEarliest]
      constructor
      · rintro ⟨hg_in, hg_eq⟩
        obtain ⟨hga, hgt⟩ := (hmem_up g).mp ((hmem g).mp hg_in)
        refine ⟨hga, hgt, fun g2 h2 hlt => ?_⟩
        have : g2 ∈ upcoming := (hmem_up g2).mpr ⟨h2, hlt⟩
        exact hg_eq ▸ hhead_min g2 this
      · rintro ⟨hga, hgt, hmin⟩
        have hgu : g ∈ upcoming := (hmem_up g).mpr ⟨hga, hgt⟩
        obtain ⟨hha, hht⟩ := (hmem_up h).mp hh
        exact ⟨(hmem g).mpr hgu,
          le_antisymm (hmin h hha hht) (hhead_min g hgu)⟩

/-! ## Claim C2 -/

/-- The minute-difference test of src/monitor.py line 276, rephrased over
the integer second difference (helper shared by the window and loop
proofs). -/
theorem is_within_eq_true (g : Game) (trigger_window now : ℤ) :
    is_game_within_trigger_window (some g) trigger_window now = true ↔
      0 ≤ g.game_time - now ∧ g.game_time - now ≤ 60 * trigger_window := by
  have h60 : (0 : ℚ) < 60 := by norm_num
  simp only [is_game_within_trigger_window, decide_eq_true_eq]
  rw [le_div_iff₀ h60, div_le_iff₀ h60, zero_mul]
  constructor
  · rintro ⟨h1, h2⟩
    refine ⟨by exact_mod_cast h1, ?_⟩
    rw [mul_comm] at h2
    exact_mod_cast h2
  · rintro ⟨h1, h2⟩
    refine ⟨by exact_mod_cast h1, ?_⟩
    rw [mul_comm]
    exact_mod_cast h2

/-- C2: for every slot, trigger window and reference time,
`is_game_within_trigger_window` is true iff
`0 <= slot_time - reference_now <= trigger_window` (window in minutes,
timestamps in seconds, both boundaries inclusive); a slot strictly in the
past is never within the window. -/
theorem is_game_within_trigger_window_iff (g : Game) (trigger_window now : ℤ) :
    (is_game_within_trigger_window (some g) trigger_window now = true ↔
      0 ≤ g.game_time - now ∧ g.game_time - now ≤ 60 * trigger_window) ∧
    (g.game_time < now →
      is_game_within_trigger_window (some g) trigger_window now = false) := by
  refine ⟨is_within_eq_true g trigger_window now, fun hlt => ?_⟩
  cases hres : is_game_within_trigger_window (some g) trigger_window now with
  | false => rfl
  | true =>
      exact absurd ((is_within_eq_true g trigger_window now).mp hres).1 (by omega)

/-- Witness for C2 at a concrete input: a slot 20 seconds in the past is not
within a 60-minute window. -/
theorem is_game_within_trigger_window_iff_witness :
    is_game_within_trigger_window (some ⟨50, "AAA", "BBB"⟩) 60 70 = false :=
  (is_game_within_trigger_window_iff ⟨50, "AAA", "BBB"⟩ 60 70).2 (by decide)

/-! ## Claim C5 -/

/-- C5 counterexample: a non-empty input whose only event is in the past.
Its earliest `scheduled_time` is 0 (every member has time 0), yet
`get_next_nfl_games` returns the empty list — not the group of events at
the earliest timestamp, as the claim requires for every non-empty input. -/
theorem next_slot_counterexample :
    ([(⟨0, "AAA", "BBB"⟩ : Game)] ≠ []) ∧
    (∀ g ∈ [(⟨0, "AAA", "BBB"⟩ : Game)], g.game_time = 0) ∧
    get_next_nfl_games [⟨0, "AAA", "BBB"⟩] 1 = [] ∧
    get_next_nfl_games [⟨0, "AAA", "BBB"⟩] 1 ≠ [⟨0, "AAA", "BBB"⟩] := by
  decide

/-- C5 amended: `next_slot` first discards the events not strictly after
`reference_now` (src/monitor.py, line 171) and returns exactly the events
with the earliest `scheduled_time` among the remaining ones; it returns the
empty result when the input is empty or every event is at or before
`reference_now`. -/
theorem get_next_nfl_games_mem (all_games : List Game) (now : ℤ) (g : Game) :
    g ∈ get_next_nfl_games all_games now ↔
      g ∈ all_games ∧ now < g.game_time ∧
        ∀ g2 ∈ all_games, now < g2.game_time → g.game_time ≤ g2.game_time :=
  mem_nextGroup

/-- Witness for C5 (amended) at a concrete input: among future events at
times 10 and 30, the event at 10 is in the returned slot. -/
theorem get_next_nfl_games_mem_witness :
    (⟨10, "CCC", "DDD"⟩ : Game) ∈
      get_next_nfl_games [⟨30, "AAA", "BBB"⟩, ⟨10, "CCC", "DDD"⟩] 5 :=
  (get_next_nfl_games_mem [⟨30, "AAA", "BBB"⟩, ⟨10, "CCC", "DDD"⟩] 5
    ⟨10, "CCC", "DDD"⟩).mpr (by decide)

/-! ## Claim C6 -/

/-- C6: the sequence produced by the schedule-source pipeline is ordered
ascending by `scheduled_time`, and every event in it is strictly after
`reference_now` (an event exactly at `reference_now` is filtered out by the
`<=` comparison of src/monitor.py line 171). -/
theorem fetch_upcoming_events_sorted_future (all_games : List Game) (now : ℤ) :
    List.Pairwise (fun a b : Game => a.game_time ≤ b.game_time)
        (fetch_upcoming_events all_games now) ∧
      ∀ g ∈ fetch_upcoming_events all_games now, now < g.game_time := by
  constructor
  · exact sorted_sortGames _
  · intro g hg
    have h1 := mem_sortGames.mp hg
    have h2 := (List.mem_filter.mp h1).2
    simpa using h2

/-- Witness for C6 at a concrete input: the event at time 100 returned for
`reference_now = 5` is strictly after 5. -/
theorem fetch_upcoming_events_sorted_future_witness :
    (5 : ℤ) < (Game.mk 100 "AAA" "BBB").game_time :=
  (fetch_upcoming_events_sorted_future [⟨100, "AAA", "BBB"⟩] 5).2
    ⟨100, "AAA", "BBB"⟩ (by decide)

/-! ## Claim C10 -/

/-- C10: whenever the scheduler derives a replacement watch set from a
non-empty current watch set, every game of the replacement set is strictly
later than the game time of the current set (src/monitor.py, line 229,
strict comparison); hence the watched slot time strictly increases across
watch-set replacements. -/
theorem after_current_strictly_later (all_games : List Game) (now : ℤ)
    (c : Game) (cs : List Game) (g : Game)
    (hg : g ∈ get_next_upcoming_games_after_current all_games now (c :: cs)) :
    c.game_time < g.game_time := by
  simp only [get_next_upcoming_games_after_current] at hg
  exact (mem_nextGroup.mp hg).2.1

/-- Witness for C10 at a concrete input: replacing the watch set at time 10
adopts the game at time 30, which is strictly later. -/
theorem after_current_strictly_later_witness :
    (Game.mk 10 "AAA" "BBB").game_time < (Game.mk 30 "CCC" "DDD").game_time :=
  after_current_strictly_later [⟨10, "AAA", "BBB"⟩, ⟨30, "CCC", "DDD"⟩] 0
    ⟨10, "AAA", "BBB"⟩ [] ⟨30, "CCC", "DDD"⟩ (by decide)

/-! ## Claim C4 -/

/-- Arithmetic core of `parse_game_time`: the datetime built from the
days-ahead computation of src/monitor.py lines 42-47 is strictly in the
future and at most 7 days ahead, for any requested weekday number and any
in-range clock reading. -/
theorem mkGameDatetime_future (today : PyDateTime) (hv : today.Valid)
    (day_num hour minute : ℤ) (t : PyDateTime)
    (h : mkGameDatetime today
        (if (day_num - today.day % 7) % 7 = 0 ∧
            (hour < today.hour ∨ (hour = today.hour ∧ minute ≤ today.minute))
         then 7 else (day_num - today.day % 7) % 7) hour minute = some t) :
    today.toMicros < t.toMicros ∧
      t.toMicros ≤ today.toMicros + 7 * 86400000000 := by
  unfold mkGameDatetime at h
  split at h
  case isTrue hrange =>
    injection h with h
    subst h
    obtain ⟨hv1, hv2, hv3, hv4, hv5, hv6, hv7, hv8⟩ := hv
    unfold PyDateTime.toMicros
    dsimp only
    split
    case isTrue hcond => omega
    case isFalse hcond => omega
  case isFalse => exact absurd h (by simp)

/-- C4: whenever `parse_game_time` succeeds, for any in-range clock reading
the result is strictly after the clock reading and at most 7 days ahead of
it — the next future occurrence of the requested weekday and time, with the
7-day advance covering the same-day equal-or-past case
(src/monitor.py, lines 40-49). -/
theorem parse_game_time_future (s : String) (today t : PyDateTime)
    (hv : today.Valid) (h : parse_game_time s today = some t) :
    today.toMicros < t.toMicros ∧
      t.toMicros ≤ today.toMicros + 7 * 86400000000 := by
  unfold parse_game_time at h
  split at h
  · exact absurd h (by simp)
  · rcases hm : matchGameTime (pyStrip s.data) with - | ⟨abbr, hour12, minute, isPM⟩
    · rw [hm] at h; exact absurd h (by simp)
    · rw [hm] at h
      simp only at h
      rcases hd : day_map abbr with - | day_num
      · rw [hd] at h; exact absurd h (by simp)
      · rw [hd] at h
        simp only at h
        exact mkGameDatetime_future today hv day_num (to24 hour12 isPM) minute t h

/-- Witness for C4 at a concrete input: parsing the string of the
specification scenario at Monday noon yields Thursday 19:20 of the same
week, strictly in the future and within 7 days. -/
theorem parse_game_time_future_witness :
    (⟨0, 12, 0, 0, 0⟩ : PyDateTime).toMicros <
        (⟨3, 19, 20, 0, 0⟩ : PyDateTime).toMicros ∧
      (⟨3, 19, 20, 0, 0⟩ : PyDateTime).toMicros ≤
        (⟨0, 12, 0, 0, 0⟩ : PyDateTime).toMicros + 7 * 86400000000 :=
  parse_game_time_future "Thu 7:20pm" ⟨0, 12, 0, 0, 0⟩ ⟨3, 19, 20, 0, 0⟩
    (by decide) (by decide)

/-! ## Claim C7 -/

/-- C7 counterexample: the time-only shape without weekday is rejected by
`parse_game_time` — the anchored pattern of src/monitor.py line 20 requires
three word characters before the time, and a colon is not a word
character. -/
theorem parse_time_only_counterexample :
    parse_game_time "7:20pm" ⟨0, 12, 0, 0, 0⟩ = none := by
  decide

/-- A colon among the first three characters makes the anchored match of
src/monitor.py line 20 fail. -/
theorem matchGameTime_colon_early (l : List Char)
    (h : l[1]? = some ':' ∨ l[2]? = some ':') :
    matchGameTime l = none := by
  rcases l with - | ⟨c1, - | ⟨c2, - | ⟨c3, - | ⟨c4, rest⟩⟩⟩⟩
  · rfl
  · rfl
  · rfl
  · rfl
  · simp only [List.getElem?_cons_succ, List.getElem?_cons_zero,
      Option.some.injEq] at h
    unfold matchGameTime
    rcases h with rfl | rfl
    · simp [pyIsWord]
    · simp [pyIsWord]

/-- C7 amended: `parse_game_time` reports ParseFailure (returns `None`) for
every time-only string of shape `h:mm(am|pm)` — any input whose stripped
form has a colon in position 1 or 2 — regardless of the clock reading; the
time-only shape is handled only by the separate parser
`parse_game_date` of src/nfl_stats_fetcher.py, not by the monitoring
parser. -/
theorem parse_game_time_rejects_time_only (s : String) (today : PyDateTime)
    (h : (pyStrip s.data)[1]? = some ':' ∨ (pyStrip s.data)[2]? = some ':') :
    parse_game_time s today = none := by
  unfold parse_game_time
  split
  · rfl
  · rw [matchGameTime_colon_early (pyStrip s.data) h]

/-- Witness for C7 (amended) at a concrete input. -/
theorem parse_game_time_rejects_time_only_witness :
    parse_game_time "1:00pm" ⟨4, 9, 30, 0, 0⟩ = none :=
  parse_game_time_rejects_time_only "1:00pm" ⟨4, 9, 30, 0, 0⟩ (by decide)

/-! ## Claim C9 -/

/-- C9 counterexample: `parse_game_time` takes only the time string as a
Python parameter and reads the clock ambiently via `datetime.now()`
(src/monitor.py, line 41); with the string fixed, its result changes with
the ambient clock reading, so it is not a pure function of an explicitly
threaded `(time_string, reference_now)` pair. -/
theorem parse_ambient_clock_counterexample :
    parse_game_time "Thu 7:20pm" ⟨0, 12, 0, 0, 0⟩ ≠
      parse_game_time "Thu 7:20pm" ⟨7, 12, 0, 0, 0⟩ := by
  decide

/-- C9 amended: `parse_game_time` is deterministic given the time string
together with the ambient clock value read inside the function; moreover it
consults only the date (day), hour and minute of that clock value — two
calls with the same string during the same clock minute agree, whatever the
seconds and microseconds. -/
theorem parse_game_time_deterministic (s : String) (t1 t2 : PyDateTime)
    (hd : t1.day = t2.day) (hh : t1.hour = t2.hour)
    (hm : t1.minute = t2.minute) :
    parse_game_time s t1 = parse_game_time s t2 := by
  obtain ⟨d1, h1, m1, s1, u1⟩ := t1
  obtain ⟨d2, h2, m2, s2, u2⟩ := t2
  dsimp only at hd hh hm
  subst hd; subst hh; subst hm
  rfl

/-- Witness for C9 (amended): two clock readings in the same minute yield
the same parse result. -/
theorem parse_game_time_deterministic_witness :
    parse_game_time "Thu 7:20pm" ⟨0, 12, 0, 30, 999⟩ =
      parse_game_time "Thu 7:20pm" ⟨0, 12, 0, 0, 0⟩ :=
  parse_game_time_deterministic "Thu 7:20pm" ⟨0, 12, 0, 30, 999⟩
    ⟨0, 12, 0, 0, 0⟩ rfl rfl rfl

/-! ## Claim C8 -/

/-- C8: the date-keyed cache contract is broken by the code for the empty
response.  After a lookup on a day with no games stores the empty mapping
for that date (src/visit_prizepicks.py, lines 55-56), a later lookup on the
same date still calls the provider: the guard of line 37 tests the dict for
truthiness, and the empty dict is falsy, so the deliberately stored empty
response can never be returned as a cache hit. -/
theorem nfl_cache_empty_never_hit :
    (get_nfl_game_times ⟨none, none⟩ 5 (.ok [⟨6, "HHH", "AAA", "7:20pm"⟩]) =
      ([], ⟨some [], some 5⟩, true)) ∧
    (get_nfl_game_times ⟨some [], some 5⟩ 5
        (.ok [⟨6, "HHH", "AAA", "7:20pm"⟩])).2.2 = true := by
  decide

/-! ## Loop lemmas for C1 and C3 -/

/-- Effect of one tick body on the triggered set: the set only grows, and
the callback is invoked only for a key that was not yet in the set and that
was added before the call (mark-before-call, src/monitor.py,
lines 333-334). -/
theorem tickBody_last_spec (w : ℤ) (ac : Bool) (st : MonState) (env : TickEnv)
    (ng : List Game) (cur1 : Option (List Game)) {st' : MonState}
    {o : Option ℤ} (h : tickBody w ac st env ng cur1 = (st', o)) :
    (∀ x ∈ st.last_triggered_games, x ∈ st'.last_triggered_games) ∧
    (∀ k, o = some k →
      k ∉ st.last_triggered_games ∧ k ∈ st'.last_triggered_games) := by
  rcases ng with - | ⟨first, rest⟩
  · simp only [tickBody] at h
    injection h with h1 h2
    subst h1; subst h2
    exact ⟨fun x hx => hx, fun k hk => Option.noConfusion hk⟩
  · simp only [tickBody] at h
    split at h
    · split at h
      next hmem =>
        injection h with h1 h2
        subst h1; subst h2
        exact ⟨fun x hx => hx, fun k hk => Option.noConfusion hk⟩
      next hmem =>
        split at h
        · split at h
          · injection h with h1 h2
            subst h1; subst h2
            refine ⟨fun x hx => List.mem_cons_of_mem _ hx, fun k hk => ?_⟩
            have he : first.game_time = k := by injection hk
            subst he
            exact ⟨hmem, List.mem_cons_self _ _⟩
          · split at h
            · split at h
              · injection h with h1 h2
                subst h1; subst h2
                refine ⟨fun x hx => List.mem_cons_of_mem _ hx, fun k hk => ?_⟩
                have he : first.game_time = k := by injection hk
                subst he
                exact ⟨hmem, List.mem_cons_self _ _⟩
              · injection h with h1 h2
                subst h1; subst h2
                refine ⟨fun x hx => List.mem_cons_of_mem _ hx, fun k hk => ?_⟩
                have he : first.game_time = k := by injection hk
                subst he
                exact ⟨hmem, List.mem_cons_self _ _⟩
            · injection h with h1 h2
              subst h1; subst h2
              refine ⟨fun x hx => List.mem_cons_of_mem _ hx, fun k hk => ?_⟩
              have he : first.game_time = k := by injection hk
              subst he
              exact ⟨hmem, List.mem_cons_self _ _⟩
        · injection h with h1 h2
          subst h1; subst h2
          exact ⟨fun x hx => List.mem_cons_of_mem _ hx,
            fun k hk => Option.noConfusion hk⟩
    · injection h with h1 h2
      subst h1; subst h2
      exact ⟨fun x hx => hx, fun k hk => Option.noConfusion hk⟩

/-- Evaluation of the tick body on a fresh in-window slot whose callback
reports failure: the key is marked and the callback invoked once. -/
theorem tickBody_trigger_failed (w : ℤ) (ac : Bool) (st : MonState)
    (env : TickEnv) (first : Game) (rest : List Game)
    (cur1 : Option (List Game))
    (hw : is_game_within_trigger_window (some first) w env.now = true)
    (hmem : first.game_time ∉ st.last_triggered_games)
    (hcb : env.has_callback = true)
    (hres : env.callback_result = some false) :
    tickBody w ac st env (first :: rest) cur1 =
      (⟨first.game_time :: st.last_triggered_games, cur1⟩,
        some first.game_time) := by
  simp [tickBody, hw, hmem, hcb, hres]

/-- The same facts for a whole tick. -/
theorem tick_last_spec (w : ℤ) (ac : Bool) (st : MonState) (env : TickEnv)
    {st' : MonState} {o : Option ℤ} (h : tick w ac st env = (st', o)) :
    (∀ x ∈ st.last_triggered_games, x ∈ st'.last_triggered_games) ∧
    (∀ k, o = some k →
      k ∉ st.last_triggered_games ∧ k ∈ st'.last_triggered_games) := by
  unfold tick at h
  rcases hcur : st.current_monitoring_games with - | cur
  · rw [hcur] at h
    exact tickBody_last_spec w ac st env _ _ h
  · rcases cur with - | ⟨c, cs⟩
    · rw [hcur] at h
      exact tickBody_last_spec w ac st env _ _ h
    · rw [hcur] at h
      dsimp only at h
      split at h
      · exact tickBody_last_spec w ac st env _ _ h
      · exact tickBody_last_spec w ac st env _ _ h

/-- Once a key is in the triggered set, no later tick of the run ever
invokes the callback for it again. -/
theorem runTicks_count_zero (w : ℤ) (ac : Bool) (k : ℤ) :
    ∀ (envs : List TickEnv) (st : MonState), k ∈ st.last_triggered_games →
      ((runTicks w ac st envs).2.count k) = 0 := by
  intro envs
  induction envs with
  | nil => intro st _; simp [runTicks]
  | cons e es ih =>
      intro st hk
      rcases htick : tick w ac st e with ⟨st1, o⟩
      obtain ⟨hmono, hinv⟩ := tick_last_spec w ac st e htick
      simp only [runTicks, htick]
      rcases o with - | k2
      · simpa [Option.toList] using ih st1 (hmono k hk)
      · have hne : k2 ≠ k := fun he => (hinv k2 rfl).1 (he ▸ hk)
        have hrest : ((runTicks w ac st1 es).2.count k) = 0 :=
          ih st1 (hmono k hk)
        simp [Option.toList, List.count_cons, hne, hrest]

/-- Any run invokes the callback at most once per key, from any starting
state. -/
theorem runTicks_count_le_one (w : ℤ) (ac : Bool) (k : ℤ) :
    ∀ (envs : List TickEnv) (st : MonState),
      ((runTicks w ac st envs).2.count k) ≤ 1 := by
  intro envs
  induction envs with
  | nil => intro st; simp [runTicks]
  | cons e es ih =>
      intro st
      rcases htick : tick w ac st e with ⟨st1, o⟩
      obtain ⟨hmono, hinv⟩ := tick_last_spec w ac st e htick
      simp only [runTicks, htick]
      rcases o with - | k2
      · simpa [Option.toList] using ih st1
      · by_cases hk : k2 = k
        · subst hk
          have hrest : ((runTicks w ac st1 es).2.count k2) = 0 :=
            runTicks_count_zero w ac k2 es st1 (hinv k2 rfl).2
          simp [Option.toList, List.count_cons, hrest]
        · simpa [Option.toList, List.count_cons, hk] using ih st1

/-! ## Claim C1 -/

/-- C1: starting from the fresh state of src/monitor.py lines 287-288, the
scraping callback is invoked at most once per slot key across any number of
polling ticks, whatever the window, the schedule data, and the callback
outcomes (including failures and raises); and once a key is in the
triggered set, no run ever invokes the callback for it again. -/
theorem scraping_callback_at_most_once (w : ℤ) (ac : Bool)
    (envs : List TickEnv) (k : ℤ) :
    ((runTicks w ac ⟨[], none⟩ envs).2.count k ≤ 1) ∧
    (∀ st : MonState, k ∈ st.last_triggered_games →
      (runTicks w ac st envs).2.count k = 0) :=
  ⟨runTicks_count_le_one w ac k envs ⟨[], none⟩,
   fun st hk => runTicks_count_zero w ac k envs st hk⟩

/-- Witness for C1 at a concrete input: with key 30 already triggered, a
further tick whose slot at 30 is inside the window invokes nothing. -/
theorem scraping_callback_at_most_once_witness :
    (runTicks 60 true ⟨[30], none⟩
      [⟨0, [⟨30, "AAA", "BBB"⟩], true, some true⟩]).2.count 30 = 0 :=
  (scraping_callback_at_most_once 60 true
    [⟨0, [⟨30, "AAA", "BBB"⟩], true, some true⟩] 30).2 ⟨[30], none⟩ (by decide)

/-! ## Claim C3 -/

/-- Every tick produces a successor state: the loop processes every tick. -/
theorem runStates_length (w : ℤ) (ac : Bool) :
    ∀ (envs : List TickEnv) (st : MonState),
      (runStates w ac st envs).length = envs.length := by
  intro envs
  induction envs with
  | nil => intro st; rfl
  | cons e es ih => intro st; simp [runStates, ih]

/-- C3: no error during a polling tick is fatal.  (i) A run processes every
tick — the per-tick `try/except` of src/monitor.py lines 365-366 makes each
iteration total.  (ii) A schedule-source error or empty result (the fetch
helpers catch their errors and return the empty list) leaves the watch set
null and invokes nothing, and the loop proceeds.  (iii) A callback raise or
false return is treated as callback failure: the key stays marked and no
later tick of the run re-invokes it; the run itself continues by (i). -/
theorem monitoring_run_never_fatal (w : ℤ) (ac : Bool) (st : MonState)
    (env : TickEnv) (envs : List TickEnv) :
    ((runStates w ac st envs).length = envs.length) ∧
    (st.current_monitoring_games = none → env.all_games = [] →
      (tick w ac st env).1.current_monitoring_games = none ∧
        (tick w ac st env).2 = none) ∧
    ((env.callback_result = none ∨ env.callback_result = some false) →
      ∀ (st' : MonState) (k : ℤ), tick w ac st env = (st', some k) →
        ∀ more : List TickEnv, (runTicks w ac st' more).2.count k = 0) := by
  refine ⟨runStates_length w ac envs st, ?_, ?_⟩
  · intro hcur hgames
    obtain ⟨last, cur⟩ := st
    obtain ⟨now, ag, hc, cb⟩ := env
    dsimp only at hcur hgames
    subst hcur; subst hgames
    exact ⟨rfl, rfl⟩
  · intro _ st' k htick more
    exact runTicks_count_zero w ac k more st'
      ((tick_last_spec w ac st env htick).2 k rfl).2

/-- Witness for C3 at concrete inputs: an empty schedule tick from the
fresh state leaves the watch set null; after a failing callback triggered
key 30, a further tick with the same slot in window invokes nothing. -/
theorem monitoring_run_never_fatal_witness :
    ((tick 60 true ⟨[], none⟩ ⟨0, [], true, some true⟩).1.current_monitoring_games
        = none) ∧
    ((runTicks 60 true ⟨[30], none⟩
        [⟨1, [⟨30, "AAA", "BBB"⟩], true, some true⟩]).2.count 30 = 0) := by
  constructor
  · exact ((monitoring_run_never_fatal 60 true ⟨[], none⟩
      ⟨0, [], true, some true⟩ []).2.1 rfl rfl).1
  · have htick : tick 60 true ⟨[], none⟩
        ⟨0, [⟨30, "AAA", "BBB"⟩], true, some false⟩ =
          (⟨[30], none⟩, some 30) := by
      have hng : get_next_nfl_games [⟨30, "AAA", "BBB"⟩] (0 : ℤ) =
          [⟨30, "AAA", "BBB"⟩] := by decide
      show tickBody 60 true ⟨[], none⟩ ⟨0, [⟨30, "AAA", "BBB"⟩], true, some false⟩
        (get_next_nfl_games [⟨30, "AAA", "BBB"⟩] 0) none = (⟨[30], none⟩, some 30)
      rw [hng]
      exact tickBody_trigger_failed 60 true ⟨[], none⟩ _ ⟨30, "AAA", "BBB"⟩ []
        none ((is_within_eq_true ⟨30, "AAA", "BBB"⟩ 60 0).mpr (by decide))
        (by decide) rfl rfl
    exact (monitoring_run_never_fatal 60 true ⟨[], none⟩
      ⟨0, [⟨30, "AAA", "BBB"⟩], true, some false⟩ []).2.2 (Or.inr rfl)
      ⟨[30], none⟩ 30 htick [⟨1, [⟨30, "AAA", "BBB"⟩], true, some true⟩]
